import Mathlib

/-!
Shallow embedding of the Audacious FadeOut plugin
(src/audacious-plugin-fadeout.cc, with the legacy C implementation
src/audacious-plugin-fadeout.c embedded separately for the equivalence
claim).

Modelling conventions:
* C `double`/`float` values are modelled as real numbers (`ℝ`); the
  exponential-decay arithmetic of the fade loop is exact over `ℝ`.
* The process-wide mutable globals (`vol_reduction`,
  `is_plugin_processing`) together with observation counters for the
  externally visible effects (posted idle callbacks, direct
  `aud_drct_stop` calls, spawned fading threads, `g_warning` calls) form
  the state record `FadeState`.  Each C function that touches the
  globals becomes a state transformer.
* The fading thread's loop is modelled one iteration at a time
  (`fading_iter`): a transition runs from the evaluation of the loop
  condition `vol_reduction < MAX_VOL_REDUCTION` up to the same point of
  the next iteration; external writes to the shared state interleave
  between transitions.  Sleeping and the timer bookkeeping touch no
  shared audio state and are modelled separately (`timing_update`).
-/

namespace Fadeout

/-- MAX_VOL_REDUCTION (src/audacious-plugin-fadeout.cc:48): maximum volume
reduction, roughly corresponding to silence. -/
def MAX_VOL_REDUCTION : ℝ := 200

/-- calculate_vol_reduction_amount (src/audacious-plugin-fadeout.cc:118-124):
`pow (MAX_VOL_REDUCTION, (1 / (100 * duration)))`.  The configured duration
read by `aud_get_double` is passed as the parameter `duration`. -/
noncomputable def calculate_vol_reduction_amount (duration : ℝ) : ℝ :=
  MAX_VOL_REDUCTION ^ (1 / (100 * duration))

/-- Process-wide state of the plugin: the two shared globals
(src/audacious-plugin-fadeout.cc:95,97) plus counters for the externally
observable effects. -/
structure FadeState where
  /-- vol_reduction (cc:95): 1 for inactive fading; greater than 1 while
  fading is active. -/
  vol_reduction : ℝ
  /-- is_plugin_processing (cc:97). -/
  is_plugin_processing : Bool
  /-- number of fading threads spawned so far by g_thread_try_new
  (cc:181). -/
  threads_spawned : ℕ
  /-- number of deferred stop callbacks posted to the main loop with
  g_idle_add (cc:114). -/
  stops_requested : ℕ
  /-- number of direct aud_drct_stop invocations (cc:103); such a call only
  ever happens inside the main-loop callback. -/
  host_stops : ℕ
  /-- number of g_warning calls (cc:187). -/
  warnings : ℕ

/-- stop_playback_and_fading (src/audacious-plugin-fadeout.cc:109-115): only
posts `stop_playback_and_fading_cb` to the main loop via `g_idle_add`;
nothing happens synchronously. -/
def stop_playback_and_fading (s : FadeState) : FadeState :=
  { s with stops_requested := s.stops_requested + 1 }

/-- stop_playback_and_fading_cb (src/audacious-plugin-fadeout.cc:101-107):
runs later on the main loop; calls `aud_drct_stop` and resets
`vol_reduction` to 1. -/
def stop_playback_and_fading_cb (s : FadeState) : FadeState :=
  { s with host_stops := s.host_stops + 1, vol_reduction := 1 }

/-- FadeoutPlugin::process (src/audacious-plugin-fadeout.cc:219-232): when
`vol_reduction != 1`, every sample is divided in place by `vol_reduction`;
otherwise the buffer is returned untouched.  The global read of
`vol_reduction` is the parameter. -/
noncomputable def process (vol_reduction : ℝ) (data : List ℝ) : List ℝ :=
  if vol_reduction ≠ 1 then data.map (fun f => f / vol_reduction) else data

/-- FadeoutPlugin::finish (src/audacious-plugin-fadeout.cc:234-245): when
`vol_reduction != 1` it calls `stop_playback_and_fading` (which only posts
the deferred callback, so `vol_reduction` is still unchanged afterwards),
then clears `is_plugin_processing`, then returns `process (data)`. -/
noncomputable def finish (s : FadeState) (data : List ℝ) : List ℝ × FadeState :=
  let s1 := if s.vol_reduction ≠ 1 then stop_playback_and_fading s else s
  let s2 := { s1 with is_plugin_processing := false }
  (process s2.vol_reduction data, s2)

/-- FadeoutPlugin::cleanup (src/audacious-plugin-fadeout.cc:206-212): sets
`vol_reduction = 1` ("switch off the fading thread") and removes the menu
item; it touches nothing else. -/
def cleanup (s : FadeState) : FadeState :=
  { s with vol_reduction := 1 }

/-- FadeoutPlugin::start (src/audacious-plugin-fadeout.cc:214-217). -/
def start (s : FadeState) : FadeState :=
  { s with is_plugin_processing := true }

/-- GLib's `g_thread_unref`: it dereferences its argument (decrementing the
reference count), so passing the NULL returned by a failed
`g_thread_try_new` faults; `Except.error` marks that fault. -/
def g_thread_unref (thread : Option Unit) : Except Unit Unit :=
  match thread with
  | some _ => Except.ok ()
  | none => Except.error ()

/-- fade_out_cb (src/audacious-plugin-fadeout.cc:175-194): if the plugin is
processing and fading is not yet active, a fading thread is created with
`g_thread_try_new` (`spawn_ok` abstracts whether that succeeds; on failure
it returns NULL and sets `error`), the returned pointer is passed
unconditionally to `g_thread_unref`, and only then is `error` checked and
`g_warning` called.  Outside the precondition nothing at all happens. -/
noncomputable def fade_out_cb (spawn_ok : Bool) (s : FadeState) :
    Except Unit FadeState :=
  if s.is_plugin_processing = true ∧ s.vol_reduction = 1 then
    match g_thread_unref (if spawn_ok then some () else none) with
    | Except.error e => Except.error e
    | Except.ok _ =>
      if spawn_ok then
        Except.ok { s with threads_spawned := s.threads_spawned + 1 }
      else
        Except.ok { s with warnings := s.warnings + 1 }
  else Except.ok s

/-- Control outcome of one transition of the fading thread's loop. -/
inductive ThreadStep where
  /-- the loop continues into the next iteration -/
  | running : ThreadStep
  /-- `g_thread_exit` after observing `vol_reduction == 1` (cc:157-161) -/
  | cancelled : ThreadStep
  /-- the loop condition failed at the silence threshold; the epilogue ran
  (cc:163-171) -/
  | finished : ThreadStep
  deriving DecidableEq

/-- One transition of fading_thread (src/audacious-plugin-fadeout.cc:127-172)
on the shared state, from the evaluation of the loop condition
`vol_reduction < MAX_VOL_REDUCTION` (cc:136) to the same point of the next
iteration; `a` is the thread-local `vol_reduction_amount`.  If the condition
fails, the epilogue posts the deferred stop and sets `vol_reduction = 1`
(cc:166-169).  If it holds, the body sleeps (no shared-state effect), then
polls for an external reset to 1 and exits the thread with no further
writes (cc:157-161); otherwise the loop update multiplies `vol_reduction`
by `a` (cc:137). -/
noncomputable def fading_iter (a : ℝ) (s : FadeState) : FadeState × ThreadStep :=
  if s.vol_reduction < MAX_VOL_REDUCTION then
    if s.vol_reduction = 1 then (s, ThreadStep.cancelled)
    else ({ s with vol_reduction := s.vol_reduction * a }, ThreadStep.running)
  else
    ({ stop_playback_and_fading s with vol_reduction := 1 }, ThreadStep.finished)

/-- Value of `vol_reduction` after `k` multiplications by the step factor in
fading_thread (src/audacious-plugin-fadeout.cc:135-137), starting from the
inactive value 1 (the precondition of fade_out_cb). -/
noncomputable def gainAfter (duration : ℝ) : ℕ → ℝ
  | 0 => 1
  | k + 1 => gainAfter duration k * calculate_vol_reduction_amount duration

/-- One round of the sleep-time bookkeeping in fading_thread
(src/audacious-plugin-fadeout.cc:139-152).  `target` is this iteration's
guint16 sleep target, `elapsed` the measured sleep time in microseconds
(the double `1000000.0 * g_timer_elapsed (...)` truncated by the gint32
conversion), `remaining` the gint32 running debt from the previous
iteration.  Returns the new `remaining` and the new `target`; storing the
non-negative gint32 `remaining` into the guint16 `target` (cc:152) reduces
it modulo 2^16. -/
def timing_update (target : ℕ) (elapsed : ℤ) (remaining : ℤ) : ℤ × ℕ :=
  let diff : ℤ := elapsed - target
  let remaining2 : ℤ := 10000 - diff + (if remaining < 0 then remaining else 0)
  let target2 : ℕ := (if remaining2 < 0 then 0 else remaining2).toNat % 65536
  (remaining2, target2)

/-- Literal 200 in the loop condition of the legacy fading_thread
(src/audacious-plugin-fadeout.c:96): "a volume reduction of 200 roughly
corresponds to silence". -/
def MAX_VOL_REDUCTION_legacy : ℝ := 200

/-- calculate_vol_reduction_amount of the legacy C implementation
(src/audacious-plugin-fadeout.c:197-204): `pow (200, (1 / (100 * seconds)))`. -/
noncomputable def calculate_vol_reduction_amount_legacy (seconds : ℝ) : ℝ :=
  (200 : ℝ) ^ (1 / (100 * seconds))

/-- Value of `vol_reduction` after `k` multiplications by
`vol_reduction_amount` in the legacy fading_thread
(src/audacious-plugin-fadeout.c:96-97), starting from the inactive value 1. -/
noncomputable def gainAfter_legacy (seconds : ℝ) : ℕ → ℝ
  | 0 => 1
  | k + 1 => gainAfter_legacy seconds k * calculate_vol_reduction_amount_legacy seconds

/-- Loop-continuation condition of the current fading_thread
(src/audacious-plugin-fadeout.cc:136). -/
def fading_loop_continues (g : ℝ) : Prop := g < MAX_VOL_REDUCTION

/-- Loop-continuation condition of the legacy fading_thread
(src/audacious-plugin-fadeout.c:96). -/
def fading_loop_continues_legacy (g : ℝ) : Prop := g < MAX_VOL_REDUCTION_legacy

/-! Helper lemmas about the decay arithmetic. -/

theorem gainAfter_eq_pow (d : ℝ) (k : ℕ) :
    gainAfter d k = calculate_vol_reduction_amount d ^ k := by
  induction k with
  | zero => rfl
  | succ k ih => rw [gainAfter, ih, pow_succ]

theorem one_lt_vol_reduction_amount {d : ℝ} (h1 : 1 ≤ d) :
    1 < calculate_vol_reduction_amount d := by
  have hm : (0 : ℝ) < 100 * d := by nlinarith
  have hc : (0 : ℝ) < 1 / (100 * d) := by positivity
  rw [calculate_vol_reduction_amount, MAX_VOL_REDUCTION,
    Real.one_lt_rpow_iff_of_pos (by norm_num)]
  exact Or.inl ⟨by norm_num, hc⟩

theorem gainAfter_rpow {d : ℝ} (h1 : 1 ≤ d) (k : ℕ) :
    gainAfter d k = (200 : ℝ) ^ ((k : ℝ) / (100 * d)) := by
  rw [gainAfter_eq_pow, calculate_vol_reduction_amount, MAX_VOL_REDUCTION,
    ← Real.rpow_natCast ((200 : ℝ) ^ (1 / (100 * d))) k,
    ← Real.rpow_mul (by norm_num : (0 : ℝ) ≤ 200), one_div_mul_eq_div]

theorem ite_neg_toNat (r : ℤ) :
    (if r < 0 then (0 : ℤ) else r).toNat = r.toNat := by
  split_ifs with h
  · rw [Int.toNat_of_nonpos (le_of_lt h)]
    rfl
  · rfl

/-! Claim theorems. -/

/-- C1: for every configured duration in [1,10] whose step count
n = 100 * duration is integral, the per-step decay factor computed at fade
activation equals MAX_VOL_REDUCTION ^ (1 / (100 * duration)) with
MAX_VOL_REDUCTION = 200, its (100 * duration)-th power equals
MAX_VOL_REDUCTION exactly, and the gain reduction, starting from 1 and
multiplied by the factor once per step, stays below the threshold for every
step before n and crosses it exactly at step n. -/
theorem step_factor_crosses_threshold (d : ℝ) (n : ℕ)
    (h1 : 1 ≤ d) (h2 : d ≤ 10) (hn : (n : ℝ) = 100 * d) :
    calculate_vol_reduction_amount d = (200 : ℝ) ^ (1 / (100 * d)) ∧
    MAX_VOL_REDUCTION = 200 ∧
    calculate_vol_reduction_amount d ^ ((100 : ℝ) * d) = MAX_VOL_REDUCTION ∧
    (∀ k : ℕ, k < n → gainAfter d k < MAX_VOL_REDUCTION) ∧
    MAX_VOL_REDUCTION ≤ gainAfter d n := by
  have hm : (0 : ℝ) < 100 * d := by nlinarith
  have hm' : (100 : ℝ) * d ≠ 0 := ne_of_gt hm
  refine ⟨rfl, rfl, ?_, ?_, ?_⟩
  · rw [calculate_vol_reduction_amount, MAX_VOL_REDUCTION,
      ← Real.rpow_mul (by norm_num : (0 : ℝ) ≤ 200), one_div,
      inv_mul_cancel₀ hm', Real.rpow_one]
  · intro k hk
    rw [gainAfter_rpow h1, MAX_VOL_REDUCTION]
    have hklt : (k : ℝ) / (100 * d) < 1 := by
      rw [div_lt_one hm, ← hn]
      exact_mod_cast hk
    calc (200 : ℝ) ^ ((k : ℝ) / (100 * d))
        < 200 ^ (1 : ℝ) :=
          (Real.rpow_lt_rpow_left_iff (by norm_num)).mpr hklt
      _ = 200 := Real.rpow_one 200
  · rw [gainAfter_rpow h1, hn, div_self hm', Real.rpow_one, MAX_VOL_REDUCTION]

/-- C1 witness: the theorem instantiated at duration 4 seconds and n = 400
steps. -/
theorem step_factor_crosses_threshold_witness :
    ((1 : ℝ) ≤ 4 ∧ (4 : ℝ) ≤ 10 ∧ ((400 : ℕ) : ℝ) = 100 * 4) ∧
    (calculate_vol_reduction_amount 4 = (200 : ℝ) ^ ((1 : ℝ) / (100 * 4)) ∧
      MAX_VOL_REDUCTION = 200 ∧
      calculate_vol_reduction_amount 4 ^ ((100 : ℝ) * 4) = MAX_VOL_REDUCTION ∧
      (∀ k : ℕ, k < 400 → gainAfter 4 k < MAX_VOL_REDUCTION) ∧
      MAX_VOL_REDUCTION ≤ gainAfter 4 400) :=
  ⟨⟨by norm_num, by norm_num, by norm_num⟩,
    step_factor_crosses_threshold 4 400 (by norm_num) (by norm_num) (by norm_num)⟩

/-- C2: process returns, for every gain state and every buffer, exactly the
input buffer when the gain reduction is 1 (bit-identical fast path) and the
pointwise division of the buffer by the gain reduction otherwise; the empty
buffer comes back empty in both states. -/
theorem process_preserves_or_divides (g : ℝ) (data : List ℝ) :
    process g data = (if g = 1 then data else data.map (fun f => f / g)) ∧
    process g [] = [] := by
  constructor
  · by_cases h : g = 1 <;> simp [process, h]
  · simp [process]

/-- C4: for every duration in [1,10] the per-step factor is strictly greater
than 1, the gain of a fade session is monotonically non-decreasing step by
step, it never drops below 1, and every operation on the shared state
(cleanup, the main-loop stop callback, start, finish, and a fading-thread
transition) preserves the lower bound 1 on vol_reduction. -/
theorem gain_reduction_monotone (d : ℝ) (h1 : 1 ≤ d) (h2 : d ≤ 10) :
    1 < calculate_vol_reduction_amount d ∧
    (∀ k : ℕ, gainAfter d k ≤ gainAfter d (k + 1)) ∧
    (∀ k : ℕ, 1 ≤ gainAfter d k) ∧
    (∀ s : FadeState, 1 ≤ s.vol_reduction →
      1 ≤ (cleanup s).vol_reduction ∧
      1 ≤ (stop_playback_and_fading_cb s).vol_reduction ∧
      1 ≤ (start s).vol_reduction ∧
      (∀ data : List ℝ, 1 ≤ (finish s data).2.vol_reduction) ∧
      1 ≤ (fading_iter (calculate_vol_reduction_amount d) s).1.vol_reduction) := by
  have ha : 1 < calculate_vol_reduction_amount d := one_lt_vol_reduction_amount h1
  have hge : ∀ k : ℕ, 1 ≤ gainAfter d k := by
    intro k
    induction k with
    | zero => exact le_refl 1
    | succ k ih =>
      rw [gainAfter]
      nlinarith
  refine ⟨ha, ?_, hge, ?_⟩
  · intro k
    rw [gainAfter]
    have := hge k
    nlinarith
  · intro s hs
    refine ⟨le_refl 1, le_refl 1, hs, ?_, ?_⟩
    · intro data
      rw [finish]
      split_ifs <;> simpa using hs
    · rw [fading_iter]
      split_ifs with hlt heq
      · simpa using hs
      · simp only []
        nlinarith
      · exact le_refl 1

/-- C4 witness: the theorem instantiated at duration 4. -/
theorem gain_reduction_monotone_witness :
    ((1 : ℝ) ≤ 4 ∧ (4 : ℝ) ≤ 10) ∧
    (1 < calculate_vol_reduction_amount 4 ∧
      (∀ k : ℕ, gainAfter 4 k ≤ gainAfter 4 (k + 1)) ∧
      (∀ k : ℕ, 1 ≤ gainAfter 4 k) ∧
      (∀ s : FadeState, 1 ≤ s.vol_reduction →
        1 ≤ (cleanup s).vol_reduction ∧
        1 ≤ (stop_playback_and_fading_cb s).vol_reduction ∧
        1 ≤ (start s).vol_reduction ∧
        (∀ data : List ℝ, 1 ≤ (finish s data).2.vol_reduction) ∧
        1 ≤ (fading_iter (calculate_vol_reduction_amount 4) s).1.vol_reduction)) :=
  ⟨⟨by norm_num, by norm_num⟩,
    gain_reduction_monotone 4 (by norm_num) (by norm_num)⟩

/-- C3: fade_out_cb is a silent no-op whenever the plugin is not processing
or a fade is already active (gain reduction different from 1): the state
comes back unchanged, so no background task is spawned; and whenever the
spawn counter did change, both preconditions necessarily held. -/
theorem fade_out_cb_precondition_noop (ok : Bool) (s : FadeState) :
    (s.is_plugin_processing = false → fade_out_cb ok s = Except.ok s) ∧
    (s.vol_reduction ≠ 1 → fade_out_cb ok s = Except.ok s) ∧
    (∀ s2 : FadeState, fade_out_cb ok s = Except.ok s2 →
      s2.threads_spawned ≠ s.threads_spawned →
      s.is_plugin_processing = true ∧ s.vol_reduction = 1) := by
  refine ⟨?_, ?_, ?_⟩
  · intro h
    rw [fade_out_cb, if_neg]
    rintro ⟨hp, _⟩
    rw [h] at hp
    exact Bool.false_ne_true hp
  · intro h
    rw [fade_out_cb, if_neg]
    rintro ⟨_, hv⟩
    exact h hv
  · intro s2 hok hchanged
    by_cases hpre : s.is_plugin_processing = true ∧ s.vol_reduction = 1
    · exact hpre
    · rw [fade_out_cb, if_neg hpre, Except.ok.injEq] at hok
      subst hok
      exact absurd rfl hchanged

/-- C3 witness: with a fade already active (gain reduction 2) the call is a
no-op even though the plugin is processing. -/
theorem fade_out_cb_precondition_noop_witness :
    ((2 : ℝ) ≠ 1) ∧
    fade_out_cb true
        { vol_reduction := 2, is_plugin_processing := true,
          threads_spawned := 1, stops_requested := 0, host_stops := 0,
          warnings := 0 } =
      Except.ok
        { vol_reduction := 2, is_plugin_processing := true,
          threads_spawned := 1, stops_requested := 0, host_stops := 0,
          warnings := 0 } :=
  ⟨by norm_num,
    (fade_out_cb_precondition_noop true
      { vol_reduction := 2, is_plugin_processing := true, threads_spawned := 1,
        stops_requested := 0, host_stops := 0, warnings := 0 }).2.1
      (by norm_num)⟩

/-- C5: finish returns the buffer processed with the current gain reduction,
clears the processing flag, posts exactly one deferred stop request iff a
fade was active and none otherwise, performs no direct host stop, and
leaves the gain reduction itself unchanged. -/
theorem finish_attenuates_then_stops (s : FadeState) (data : List ℝ) :
    (finish s data).1 = process s.vol_reduction data ∧
    (finish s data).2.is_plugin_processing = false ∧
    (finish s data).2.stops_requested =
      s.stops_requested + (if s.vol_reduction ≠ 1 then 1 else 0) ∧
    (finish s data).2.host_stops = s.host_stops ∧
    (finish s data).2.vol_reduction = s.vol_reduction := by
  rw [finish]
  split_ifs with h <;> simp [stop_playback_and_fading]

/-- C6 counterexample: cleanup invoked while the plugin is processing leaves
is_plugin_processing set, contradicting the claim that cleanup clears the
shared processing flag. -/
theorem cleanup_keeps_processing_flag_true :
    (cleanup
        { vol_reduction := 2, is_plugin_processing := true,
          threads_spawned := 1, stops_requested := 0, host_stops := 0,
          warnings := 0 }).is_plugin_processing = true := rfl

/-- C6 as amended: cleanup unconditionally resets the gain reduction to 1 —
so a running fade task observes the reset at its next poll and terminates —
but leaves is_plugin_processing unchanged (that flag is cleared only by the
stream-end hook). -/
theorem cleanup_resets_gain_only (s : FadeState) (a : ℝ) :
    (cleanup s).vol_reduction = 1 ∧
    (cleanup s).is_plugin_processing = s.is_plugin_processing ∧
    fading_iter a (cleanup s) = (cleanup s, ThreadStep.cancelled) := by
  refine ⟨rfl, rfl, ?_⟩
  rw [fading_iter]
  rw [if_pos (by norm_num [cleanup, MAX_VOL_REDUCTION])]
  rw [if_pos (show (cleanup s).vol_reduction = 1 from rfl)]

/-- C7: a fading-thread transition never performs a direct host stop; at the
silence threshold it posts exactly one deferred stop request and resets the
gain reduction to 1; and at an observed external reset to 1 it terminates
immediately with the state untouched and no stop request posted. -/
theorem fading_iter_stop_discipline (a : ℝ) (s : FadeState) :
    (fading_iter a s).1.host_stops = s.host_stops ∧
    (MAX_VOL_REDUCTION ≤ s.vol_reduction →
      fading_iter a s =
        ({ s with stops_requested := s.stops_requested + 1, vol_reduction := 1 },
          ThreadStep.finished)) ∧
    (s.vol_reduction = 1 →
      fading_iter a s = (s, ThreadStep.cancelled)) := by
  refine ⟨?_, ?_, ?_⟩
  · rw [fading_iter]
    split_ifs <;> simp [stop_playback_and_fading]
  · intro h
    rw [fading_iter, if_neg (not_lt.mpr h)]
    rfl
  · intro h
    rw [fading_iter, if_pos (by rw [h]; norm_num [MAX_VOL_REDUCTION]), if_pos h]

/-- C7 witness: the theorem instantiated at the threshold state (gain 200)
and at an externally reset state (gain 1). -/
theorem fading_iter_stop_discipline_witness :
    (MAX_VOL_REDUCTION ≤ (200 : ℝ) ∧
      fading_iter 2
          { vol_reduction := 200, is_plugin_processing := true,
            threads_spawned := 1, stops_requested := 0, host_stops := 0,
            warnings := 0 } =
        ({ vol_reduction := 1, is_plugin_processing := true,
            threads_spawned := 1, stops_requested := 1, host_stops := 0,
            warnings := 0 },
          ThreadStep.finished)) ∧
    ((1 : ℝ) = 1 ∧
      fading_iter 2
          { vol_reduction := 1, is_plugin_processing := true,
            threads_spawned := 1, stops_requested := 0, host_stops := 0,
            warnings := 0 } =
        ({ vol_reduction := 1, is_plugin_processing := true,
            threads_spawned := 1, stops_requested := 0, host_stops := 0,
            warnings := 0 },
          ThreadStep.cancelled)) :=
  ⟨⟨by norm_num [MAX_VOL_REDUCTION],
      (fading_iter_stop_discipline 2
        { vol_reduction := 200, is_plugin_processing := true,
          threads_spawned := 1, stops_requested := 0, host_stops := 0,
          warnings := 0 }).2.1 (by norm_num [MAX_VOL_REDUCTION])⟩,
    ⟨rfl,
      (fading_iter_stop_discipline 2
        { vol_reduction := 1, is_plugin_processing := true,
          threads_spawned := 1, stops_requested := 0, host_stops := 0,
          warnings := 0 }).2.2 rfl⟩⟩

/-- C8 (code bug): when thread creation fails while both preconditions hold,
fade_out_cb passes the NULL thread pointer to g_thread_unref before the
error check, so the call faults instead of logging a warning and returning
normally. -/
theorem fade_out_cb_spawn_failure_faults :
    fade_out_cb false
        { vol_reduction := 1, is_plugin_processing := true,
          threads_spawned := 0, stops_requested := 0, host_stops := 0,
          warnings := 0 } =
      Except.error () := by
  rw [fade_out_cb, if_pos ⟨rfl, rfl⟩]
  rfl

/-- C9 counterexample: with the previous sleep target 65535 and a measured
elapsed time of 0, the running debt is 75535, but the next target stored in
the guint16 is 9999 = 75535 mod 2 to the 16th, not max 0 75535 as claimed. -/
theorem timing_update_wraps_guint16 :
    (timing_update 65535 0 0).1 = 75535 ∧
    (timing_update 65535 0 0).2 = 9999 ∧
    ((timing_update 65535 0 0).2 : ℤ) ≠ max 0 (timing_update 65535 0 0).1 := by
  refine ⟨rfl, rfl, ?_⟩
  decide

/-- C9 as amended: every round of the sleep bookkeeping computes
diff = elapsed - target and the debt remaining = 10000 - diff plus the
previous remaining when that was negative; the next target is
max 0 remaining reduced modulo 2 to the 16th by the guint16 store, which
coincides with max 0 remaining itself whenever remaining is at most
65535. -/
theorem timing_update_spec (target : ℕ) (elapsed remaining : ℤ) :
    (timing_update target elapsed remaining).1 =
      10000 - (elapsed - target) +
        (if remaining < 0 then remaining else 0) ∧
    (timing_update target elapsed remaining).2 =
      ((timing_update target elapsed remaining).1).toNat % 65536 ∧
    ((timing_update target elapsed remaining).1 ≤ 65535 →
      ((timing_update target elapsed remaining).2 : ℤ) =
        max 0 (timing_update target elapsed remaining).1) := by
  have h1 : (timing_update target elapsed remaining).1 =
      10000 - (elapsed - target) +
        (if remaining < 0 then remaining else 0) := rfl
  have h2 : (timing_update target elapsed remaining).2 =
      ((timing_update target elapsed remaining).1).toNat % 65536 := by
    show (if (10000 - (elapsed - (target : ℤ)) +
          (if remaining < 0 then remaining else 0)) < 0 then (0 : ℤ)
        else 10000 - (elapsed - target) +
          (if remaining < 0 then remaining else 0)).toNat % 65536 = _
    rw [ite_neg_toNat]
    rfl
  refine ⟨h1, h2, ?_⟩
  intro hle
  have htn : ((timing_update target elapsed remaining).1).toNat ≤ 65535 :=
    Int.toNat_le.mpr hle
  rw [h2, Nat.mod_eq_of_lt (lt_of_le_of_lt htn (by norm_num)),
    Int.toNat_eq_max]
  exact max_comm _ 0

/-- C9 witness: the amended theorem instantiated at the nominal target 10000
with elapsed time 12000 and no previous debt. -/
theorem timing_update_spec_witness :
    ((timing_update 10000 12000 0).1 ≤ 65535) ∧
    ((timing_update 10000 12000 0).1 =
        10000 - ((12000 : ℤ) - 10000) + (if (0 : ℤ) < 0 then 0 else 0) ∧
      (timing_update 10000 12000 0).2 =
        ((timing_update 10000 12000 0).1).toNat % 65536 ∧
      ((timing_update 10000 12000 0).1 ≤ 65535 →
        ((timing_update 10000 12000 0).2 : ℤ) =
          max 0 (timing_update 10000 12000 0).1)) :=
  ⟨by decide, timing_update_spec 10000 12000 0⟩

/-- C10: for the same configured duration the legacy C implementation and
the current C++ implementation compute the identical per-step factor, the
identical sequence of gain-reduction values, and terminate the ramp at the
identical silence threshold 200. -/
theorem legacy_equiv_current (d : ℝ) :
    calculate_vol_reduction_amount_legacy d = calculate_vol_reduction_amount d ∧
    (∀ k : ℕ, gainAfter_legacy d k = gainAfter d k) ∧
    MAX_VOL_REDUCTION_legacy = MAX_VOL_REDUCTION ∧
    (∀ g : ℝ, fading_loop_continues_legacy g ↔ fading_loop_continues g) := by
  refine ⟨rfl, ?_, rfl, fun g => Iff.rfl⟩
  intro k
  induction k with
  | zero => rfl
  | succ k ih => rw [gainAfter_legacy, gainAfter, ih]; rfl

end Fadeout
